import Mathlib

set_option maxHeartbeats 1000000

/- Verification of the cornerstone3D image-loading core against its design
   description.  The development shallowly embeds:
   - the StreamingDynamicImageVolume class of the streaming-volume loader
     (the private _getImageIdsToLoad while loop, the scroll method and the
     timePointIndex setter), and
   - the imageLoader module (loadImage, loadAndCacheImage, loadAndCacheImages,
     createAndCacheDerivedImage, createAndCacheLocalImage, cancelLoadImage,
     cancelLoadAll and the scheme-based loader resolution).
   Collaborators that live outside the analysed sources (the cache store, the
   request-pool manager, the metadata providers) are modelled from the design
   description; each such definition says so in its doc comment. -/

/-! Part 1: StreamingDynamicImageVolume (source file of the class with
    _getImageIdsToLoad, scroll and the timePointIndex setter). -/

/-- Payload of the DYNAMIC_VOLUME_TIME_POINT_INDEX_CHANGED notification fired
by the timePointIndex setter: volumeId, the new index, the number of imageId
groups and the splitting tag. -/
structure TimePointEvent where
  volumeId : String
  imageIdGroupIndex : Int
  numImageIdGroups : Int
  splittingTag : String
  deriving DecidableEq, Repr

/-- State of one StreamingDynamicImageVolume instance.  `timePointIndex`
mirrors the private `_timePointIndex` field, `voxelTimePoint` records the last
value passed to `voxelManager.setTimePoint`, `invalidated` is the dirty flag
raised by `invalidateVolume(true)` (the flag itself is modelled from the spec:
the `invalidateVolume` implementation lives outside the analysed sources and is
described as marking derived volume-level aggregate state invalid), and
`events` accumulates the notifications emitted so far. -/
structure DynVolume where
  volumeId : String
  splittingTag : String
  imageIdGroups : List (List String)
  timePointIndex : Int
  voxelTimePoint : Int
  invalidated : Bool
  events : List TimePointEvent
  deriving DecidableEq, Repr

/-- `numTimePoints`, set in the constructor to `imageIdGroups.length` (the
group list is fixed at construction, so we expose it as a derived value). -/
def numTimePoints (v : DynVolume) : Int := v.imageIdGroups.length

/-- The `timePointIndex` setter: no-op when the index does not change;
otherwise updates the index, forwards it to the voxel manager, raises the
invalidation flag and emits the time-point-changed notification. -/
def setTimePointIndex (v : DynVolume) (index : Int) : DynVolume :=
  if v.timePointIndex = index then v
  else
    { v with
      timePointIndex := index
      voxelTimePoint := index
      invalidated := true
      events := v.events ++ [⟨v.volumeId, index, numTimePoints v, v.splittingTag⟩] }

/-- The `scroll(delta)` method: adds `delta` to the current index and wraps a
value below 0 to `numTimePoints - 1` and a value at or above `numTimePoints`
to 0, then assigns through the `timePointIndex` setter. -/
def scroll (v : DynVolume) (delta : Int) : DynVolume :=
  let newIndex := v.timePointIndex + delta
  if newIndex < 0 then setTimePointIndex v (numTimePoints v - 1)
  else if numTimePoints v ≤ newIndex then setTimePointIndex v 0
  else setTimePointIndex v newIndex

/-- The while loop of `_getImageIdsToLoad`: while `leftIndex ≥ 0` or
`rightIndex < imageIdGroups.length`, push the left group (decrementing
`leftIndex`) and then the right group (incrementing `rightIndex`).
`leftIndex` is an `Int` exactly as in the source, where it runs down to -1. -/
def expandLoop (groups : List (List String)) (leftIndex : Int) (rightIndex : Nat) :
    List String :=
  if _h : 0 ≤ leftIndex ∨ rightIndex < groups.length then
    (if 0 ≤ leftIndex then groups.getD leftIndex.toNat [] else [])
      ++ (if rightIndex < groups.length then groups.getD rightIndex [] else [])
      ++ expandLoop groups (if 0 ≤ leftIndex then leftIndex - 1 else leftIndex)
          (if rightIndex < groups.length then rightIndex + 1 else rightIndex)
  else []
termination_by (leftIndex + 1).toNat + (groups.length - rightIndex)
decreasing_by
  split_ifs <;> omega

/-- `_getImageIdsToLoad` (also the public `getImageIdsToLoad`): the current
group first, then the expanding while loop starting one group to the left and
one group to the right of the current time-point index. -/
def getImageIdsToLoad (groups : List (List String)) (timePointIndex : Nat) :
    List String :=
  groups.getD timePointIndex [] ++ expandLoop groups ((timePointIndex : Int) - 1)
    (timePointIndex + 1)

/-- Alternate one element of the first list with one element of the second;
once one side is exhausted the rest of the other side follows in order.  Used
to state the expanding-ring ordering of the design description. -/
def interleave {α : Type} : List α → List α → List α
  | [], ys => ys
  | x :: xs, [] => x :: xs
  | x :: xs, y :: ys => x :: y :: interleave xs ys

/-- Ring order described by the design: the current group index first, then
alternately one index to the left and one to the right, expanding outward,
with the remaining side appended once one side is exhausted. -/
def ringOrder (groupCount idx : Nat) : List Nat :=
  idx :: interleave (List.range idx).reverse
    (List.range' (idx + 1) (groupCount - (idx + 1)))

/-- Concatenation of the identifier groups selected by an index order. -/
def concatGroups (groups : List (List String)) (order : List Nat) : List String :=
  match order with
  | [] => []
  | i :: rest => groups.getD i [] ++ concatGroups groups rest

/-- Descending index list represented by the loop counter `leftIndex`:
all indices from `leftIndex` down to 0 (empty once the counter is negative). -/
def leftList (l : Int) : List Nat :=
  if 0 ≤ l then (List.range (l.toNat + 1)).reverse else []

/-! Part 2: the imageLoader module.  JS promises are modelled by recording, on
    the load object created by a loader invocation, the outcome its promise
    will eventually settle to; settlement is a separate explicit step.  JS
    `throw` is modelled by returning an `Except` error together with the state
    reached before the throw. -/

/-- Errors the module can raise synchronously: the explicit parameter checks,
the no-image-loader throw of `loadImageFromImageLoader`, and the TypeError a
JS runtime raises when a missing property is called or dereferenced. -/
inductive JsError where
  | invalidParam (msg : String)
  | noImageLoader
  | typeError
  deriving DecidableEq, Repr

/-- A decoded image as far as these claims need it: its identifier. -/
structure IImage where
  imageId : String
  deriving DecidableEq, Repr

/-- What a fetch promise eventually settles to: a decoded image, or a
rejection carrying the error. -/
inductive FetchOutcome where
  | ok (image : IImage)
  | failed (error : String)
  deriving DecidableEq, Repr

/-- Notifications emitted through the event target: IMAGE_LOADED with the
image, IMAGE_LOAD_FAILED with the identifier and the error. -/
inductive LoadEvent where
  | imageLoaded (image : IImage)
  | imageLoadFailed (imageId : String) (error : String)
  deriving DecidableEq, Repr

/-- An image-load object as returned by a loader: `objId` is the identity of
the JS object (fresh per invocation), `outcome` is what its promise will
eventually settle to, and `cancelFn` is the optional cancellation hook the
loader may supply (per the design description the hook is optional). -/
structure ImageLoadObject where
  objId : Nat
  outcome : FetchOutcome
  cancelFn : Option Nat
  deriving DecidableEq, Repr

/-- A volume-load object as far as cancellation needs it: its optional
cancellation hook. -/
structure VolumeLoadObject where
  cancelHook : Option Nat
  deriving DecidableEq, Repr

/-- A registered image-loader function: the eventual outcome it produces for
an identifier, and the cancellation hook it installs on the load objects it
returns. -/
structure ImageLoaderFn where
  result : String → FetchOutcome
  hook : Option Nat

/-- One queued request's additionalDetails, as inspected by the cancellation
functions: an imageId for image requests or a volumeId for volume requests. -/
structure RequestDetails where
  imageId : Option String
  volumeId : Option String
  deriving DecidableEq, Repr

/-- Per-priority queues of one request class.  Modelled from the spec: the
request-pool manager exposes per-class per-priority queues. -/
abbrev PriorityQueues := List (Nat × List RequestDetails)

/-- The request pool: request class to its priority queues.  Modelled from the
spec contract of the scheduler port. -/
abbrev RequestPool := List (String × PriorityQueues)

/-- State of the imageLoader module together with its collaborators: the
scheme-indexed loader registry and the unknown-scheme fallback (module-local
variables of the source), the image/volume caches (modelled from the spec:
a key/value store of load objects), the request pool, the fresh-object
counter, the number of loader invocations performed, and the emitted events. -/
structure LoaderState where
  imageLoaders : List (String × ImageLoaderFn)
  unknownImageLoader : Option ImageLoaderFn
  cache : List (String × ImageLoadObject)
  volumeCache : List (String × VolumeLoadObject)
  requestPool : RequestPool
  nextObjId : Nat
  fetchCount : Nat
  events : List LoadEvent

/-- Scheme extraction of `loadImageFromImageLoader`:
`colonIndex = imageId.indexOf(':')` and `scheme = substring(0, colonIndex)`.
When the identifier has no colon, indexOf yields -1 and `substring(0, -1)`
clamps to the empty string. -/
def extractScheme (imageId : String) : String :=
  if ':' ∈ imageId.data then ⟨imageId.data.takeWhile (fun c => decide (c ≠ ':'))⟩
  else ""

/-- The resolution step of `loadImageFromImageLoader` (its first lines): look
the scheme up in the registry; when no handler is registered fall back to the
unknown-scheme loader; when neither exists, throw. -/
def resolveLoader (imageLoaders : List (String × ImageLoaderFn))
    (unknownImageLoader : Option ImageLoaderFn) (imageId : String) :
    Except JsError ImageLoaderFn :=
  let scheme := extractScheme imageId
  match imageLoaders.lookup scheme with
  | some loader => .ok loader
  | none =>
    match unknownImageLoader with
    | some u => .ok u
    | none => .error .noImageLoader

/-- Synchronous result of `loadImageFromImageLoader`: the load object, and
whether the IMAGE_LOADED / IMAGE_LOAD_FAILED handlers were attached to its
promise (they are attached on the registered-loader path only; the
unknown-loader path returns the load object directly). -/
structure SyncLoadResult where
  obj : ImageLoadObject
  eventsAttached : Bool
  deriving DecidableEq, Repr

/-- `loadImageFromImageLoader`: extract the scheme, resolve the loader (or the
unknown-scheme fallback, or throw), invoke it — counted in `fetchCount`, with
a fresh load object — and on the registered-loader path attach the event
handlers that fire at settlement. -/
def loadImageFromImageLoader (s : LoaderState) (imageId : String) :
    Except JsError SyncLoadResult × LoaderState :=
  let scheme := extractScheme imageId
  match s.imageLoaders.lookup scheme with
  | none =>
    match s.unknownImageLoader with
    | some u =>
      (.ok ⟨⟨s.nextObjId, u.result imageId, u.hook⟩, false⟩,
       { s with nextObjId := s.nextObjId + 1, fetchCount := s.fetchCount + 1 })
    | none => (.error .noImageLoader, s)
  | some loader =>
    (.ok ⟨⟨s.nextObjId, loader.result imageId, loader.hook⟩, true⟩,
     { s with nextObjId := s.nextObjId + 1, fetchCount := s.fetchCount + 1 })

/-- `loadImage`: throws when the identifier is undefined (modelled by `none`),
otherwise delegates to `loadImageFromImageLoader` and returns its promise.
The cache is never touched. -/
def loadImage (s : LoaderState) (imageId? : Option String) :
    Except JsError SyncLoadResult × LoaderState :=
  match imageId? with
  | none =>
    (.error (.invalidParam "loadImage: parameter imageId must not be undefined"), s)
  | some imageId => loadImageFromImageLoader s imageId

/-- Synchronous result of `loadAndCacheImage`: the load object, whether event
handlers were attached, and whether the load object was put into the cache
(it is put only when the cache had no entry for the identifier). -/
structure CacheSyncResult where
  obj : ImageLoadObject
  eventsAttached : Bool
  wasPut : Bool
  deriving DecidableEq, Repr

/-- `loadAndCacheImage`: throws on an undefined identifier; otherwise always
invokes `loadImageFromImageLoader`, then stores the resulting load object in
the cache only if the cache has no entry for the identifier yet. -/
def loadAndCacheImage (s : LoaderState) (imageId? : Option String) :
    Except JsError CacheSyncResult × LoaderState :=
  match imageId? with
  | none =>
    (.error (.invalidParam "loadAndCacheImage: parameter imageId must not be undefined"),
     s)
  | some imageId =>
    match loadImageFromImageLoader s imageId with
    | (.error e, s₁) => (.error e, s₁)
    | (.ok r, s₁) =>
      match s₁.cache.lookup imageId with
      | some _ => (.ok ⟨r.obj, r.eventsAttached, false⟩, s₁)
      | none =>
        (.ok ⟨r.obj, r.eventsAttached, true⟩,
         { s₁ with cache := (imageId, r.obj) :: s₁.cache })

/-- Fan-out loop of `loadAndCacheImages` (`imageIds.map(loadAndCacheImage)`);
a synchronous throw from one element aborts the map and propagates. -/
def loadAndCacheImagesLoop (s : LoaderState) :
    List String → Except JsError (List CacheSyncResult) × LoaderState
  | [] => (.ok [], s)
  | imageId :: rest =>
    match loadAndCacheImage s (some imageId) with
    | (.error e, s₁) => (.error e, s₁)
    | (.ok r, s₁) =>
      match loadAndCacheImagesLoop s₁ rest with
      | (.error e, s₂) => (.error e, s₂)
      | (.ok rs, s₂) => (.ok (r :: rs), s₂)

/-- `loadAndCacheImages`: throws when the identifier list is missing
(modelled by `none`) or empty, otherwise maps `loadAndCacheImage` over it. -/
def loadAndCacheImages (s : LoaderState) (imageIds? : Option (List String)) :
    Except JsError (List CacheSyncResult) × LoaderState :=
  match imageIds? with
  | none =>
    (.error (.invalidParam "loadAndCacheImages: parameter imageIds must be list of image Ids"),
     s)
  | some imageIds =>
    if imageIds.isEmpty then
      (.error (.invalidParam "loadAndCacheImages: parameter imageIds must be list of image Ids"),
       s)
    else loadAndCacheImagesLoop s imageIds

/-- Remove every binding of a key from an association list (the cache's
delete operation; modelled from the spec contract of the cache store). -/
def assocErase {α : Type} (k : String) : List (String × α) → List (String × α)
  | [] => []
  | (k', v) :: rest =>
    if k' = k then assocErase k rest else (k', v) :: assocErase k rest

/-- Settlement of one `loadAndCacheImage` call, applied once the fetch's
promise settles.  The handlers attached by `loadImageFromImageLoader` emit
IMAGE_LOADED or IMAGE_LOAD_FAILED.  Modelled from the spec: when the load
object was put via `cache.putImageLoadObject`, the cache removes the entry
again if the promise fails (a failed fetch is never left cached); on success
the entry stays as the resolved image. -/
def settleLoadAndCache (s : LoaderState) (imageId : String) (r : CacheSyncResult) :
    LoaderState :=
  let s₁ :=
    if r.eventsAttached then
      match r.obj.outcome with
      | .ok img => { s with events := s.events ++ [LoadEvent.imageLoaded img] }
      | .failed e => { s with events := s.events ++ [LoadEvent.imageLoadFailed imageId e] }
    else s
  if r.wasPut then
    match r.obj.outcome with
    | .ok _ => s₁
    | .failed _ => { s₁ with cache := assocErase imageId s₁.cache }
  else s₁

/-! Cancellation (cancelLoadImage, cancelLoadAll). -/

/-- JS truthiness of an optional string property: present and non-empty. -/
def isTruthy : Option String → Bool
  | some s => s != ""
  | none => false

/-- The queue-membership predicate built by `cancelLoadImage`: keep a request
when its additionalDetails carry no (truthy) imageId, or carry a different
imageId than the one being cancelled. -/
def cancelFilterFunction (imageId : String) (d : RequestDetails) : Bool :=
  match d.imageId with
  | some i => if i = "" then true else i != imageId
  | none => true

/-- `filterRequests` of the request-pool manager.  Modelled from the spec:
the scheduler keeps exactly the queued requests for which the predicate is
true, across every class and priority. -/
def filterRequests (pool : RequestPool) (keep : RequestDetails → Bool) : RequestPool :=
  pool.map fun tq => (tq.1, tq.2.map fun pq => (pq.1, pq.2.filter keep))

/-- `cancelLoadImage`: filter the identifier's queued requests out of the
request pool, then look the identifier up in the cache and, when a load
object is there, call its `cancelFn` — unconditionally, so a load object
without a cancellation hook makes the call throw a TypeError. -/
def cancelLoadImage (s : LoaderState) (imageId : String) :
    Except JsError Unit × LoaderState :=
  let s₁ := { s with requestPool := filterRequests s.requestPool (cancelFilterFunction imageId) }
  match s₁.cache.lookup imageId with
  | none => (.ok (), s₁)
  | some obj =>
    match obj.cancelFn with
    | some _ => (.ok (), s₁)
    | none => (.error .typeError, s₁)

/-- `cancelLoadImages`: per-element `cancelLoadImage`; a throw aborts the
forEach and propagates. -/
def cancelLoadImages (s : LoaderState) : List String → Except JsError Unit × LoaderState
  | [] => (.ok (), s)
  | imageId :: rest =>
    match cancelLoadImage s imageId with
    | (.error e, s₁) => (.error e, s₁)
    | (.ok _, s₁) => cancelLoadImages s₁ rest

/-- Cancellation-hook lookup for the volumeId branch of `cancelLoadAll`. -/
def volumeQueuedHook (vcache : List (String × VolumeLoadObject))
    (volumeId? : Option String) : Option (Option Nat) :=
  match volumeId? with
  | some v => if v = "" then none else (vcache.lookup v).map fun o => o.cancelHook
  | none => none

/-- The load object (represented by its cancellation hook) that
`cancelLoadAll` resolves a popped request to: the image cache entry when the
details carry a truthy imageId, else the volume cache entry when they carry a
truthy volumeId. -/
def queuedLoadHook (icache : List (String × ImageLoadObject))
    (vcache : List (String × VolumeLoadObject)) (d : RequestDetails) :
    Option (Option Nat) :=
  match d.imageId with
  | some i =>
    if i = "" then volumeQueuedHook vcache d.volumeId
    else (icache.lookup i).map fun o => o.cancelFn
  | none => volumeQueuedHook vcache d.volumeId

/-- The per-request body of `cancelLoadAll`: when a load object was resolved,
call its cancellation hook — again unconditionally, so a resolved load object
without a hook makes the call throw a TypeError. -/
def cancelQueuedRequest (icache : List (String × ImageLoadObject))
    (vcache : List (String × VolumeLoadObject)) (d : RequestDetails) :
    Except JsError Unit :=
  match queuedLoadHook icache vcache d with
  | none => .ok ()
  | some (some _) => .ok ()
  | some none => .error .typeError

/-- The inner loop of `cancelLoadAll` over one class's priority queues: pop
the last request of each priority (reading the additionalDetails of the popped
value throws a TypeError when the queue is empty) and run the cancellation
body on it.  Returns the queues as mutated so far together with the result. -/
def cancelClassQueues (icache : List (String × ImageLoadObject))
    (vcache : List (String × VolumeLoadObject)) :
    PriorityQueues → Except JsError Unit × PriorityQueues
  | [] => (.ok (), [])
  | (priority, q) :: rest =>
    match q.getLast? with
    | none => (.error .typeError, (priority, q) :: rest)
    | some d =>
      match cancelQueuedRequest icache vcache d with
      | .error e => (.error e, (priority, q.dropLast) :: rest)
      | .ok _ =>
        match cancelClassQueues icache vcache rest with
        | (res, rest') => (res, (priority, q.dropLast) :: rest')

/-- The outer loop of `cancelLoadAll` over the request classes: run the inner
loop on each class, then reset that class's stack to empty
(`clearRequestStack`, modelled from the spec: it discards every queued
request of the class). -/
def cancelAllTypes (icache : List (String × ImageLoadObject))
    (vcache : List (String × VolumeLoadObject)) :
    RequestPool → Except JsError Unit × RequestPool
  | [] => (.ok (), [])
  | (t, pris) :: rest =>
    match cancelClassQueues icache vcache pris with
    | (.error e, pris') => (.error e, (t, pris') :: rest)
    | (.ok _, _) =>
      match cancelAllTypes icache vcache rest with
      | (res, rest') => (res, (t, []) :: rest')

/-- `cancelLoadAll`: drain and clear every request class of the pool,
invoking cancellation hooks of load objects resolved from popped requests.
The cache itself is never written. -/
def cancelLoadAll (s : LoaderState) : Except JsError Unit × LoaderState :=
  match cancelAllTypes s.cache s.volumeCache s.requestPool with
  | (res, pool') => (res, { s with requestPool := pool' })

/-! Part 3: derived-frame synthesis (createAndCacheDerivedImage and
    createAndCacheLocalImage).  Buffer allocations are given identities by a
    counter so that distinctness of allocations is expressible; the uuid
    generator is a counter as well. -/

/-- The imagePlaneModule metadata a source identifier resolves to: the
geometry fields `createAndCacheLocalImage` reads. -/
structure PlaneModule where
  rows : Nat
  columns : Nat
  rowPixelSpacing : Int
  columnPixelSpacing : Int
  frameOfReferenceUID : String
  deriving DecidableEq, Repr

/-- A typed-array payload buffer: `allocId` is the identity of the
allocation (two buffers alias exactly when their allocIds are equal), `data`
its element contents. -/
structure PixelBuffer where
  allocId : Nat
  data : List Nat
  deriving DecidableEq, Repr

/-- The image object built by `createAndCacheLocalImage`, restricted to the
fields the claims are about.  `buffer` is the payload reachable through
`getPixelData` (the voxel manager wraps the same scalarData array, so payload
identity is preserved).  The window/level, slope/intercept and canvas fields
of the source are constants not inspected by any claim and are omitted. -/
structure LocalImage where
  imageId : String
  rows : Nat
  columns : Nat
  buffer : PixelBuffer
  sizeInBytes : Nat
  rowPixelSpacing : Int
  columnPixelSpacing : Int
  frameOfReferenceUID : String
  deriving DecidableEq, Repr

/-- State used by derived-frame synthesis: the image cache written through
`cache.putImageSync` and read through `cache.getImageLoadObject` (modelled
from the spec: a key/value store), the imagePlaneModule metadata store behind
`metaData.get` / `genericMetadataProvider.add` (modelled from the spec:
per-identifier metadata get/add), the allocation counter and the uuid
counter. -/
structure DerivedState where
  imageCache : List (String × LocalImage)
  planeMetadata : List (String × PlaneModule)
  nextAllocId : Nat
  nextUuid : Nat
  deriving DecidableEq, Repr

/-- The uuid generator, modelled as an injective function of the uuid
counter. -/
def uuidv4 (n : Nat) : String := "uuid-" ++ toString n

/-- Options of `createAndCacheLocalImage` restricted to the fields the
derived-image path exercises: the scalarData handed over (always supplied on
that path) and the skip-buffer flag.  The targetBufferType only selects the
typed-array class, the dimensions/spacing/origin/direction fields are unused
by the derived path, and no onCacheAdd callback is passed there; they are
omitted. -/
structure LocalImageOptions where
  scalarData : Option PixelBuffer
  skipCreateBuffer : Bool
  deriving DecidableEq, Repr

/-- Options of `createAndCacheDerivedImage`: the optional explicit derived
identifier and the skip-buffer flag. -/
structure DerivedImageOptions where
  imageId : Option String
  skipCreateBuffer : Bool
  deriving DecidableEq, Repr

/-- `createAndCacheLocalImage`: read the imagePlaneModule of the identifier
(dereferencing missing metadata throws), build the image with the metadata's
rows/columns, attach the supplied scalarData — or a fresh zero-filled buffer
of length rows*columns when none was supplied and buffer creation is not
skipped; with creation skipped and no scalarData the later getPixelData call
throws — and store the image in the cache synchronously. -/
def createAndCacheLocalImage (s : DerivedState) (options : LocalImageOptions)
    (imageId : String) : Except JsError (LocalImage × DerivedState) :=
  match s.planeMetadata.lookup imageId with
  | none => .error .typeError
  | some pm =>
    let width := pm.columns
    let height := pm.rows
    let length := width * height
    match options.scalarData with
    | some buf =>
      let image : LocalImage :=
        { imageId := imageId, rows := height, columns := width, buffer := buf,
          sizeInBytes := buf.data.length, rowPixelSpacing := pm.rowPixelSpacing,
          columnPixelSpacing := pm.columnPixelSpacing,
          frameOfReferenceUID := pm.frameOfReferenceUID }
      .ok (image, { s with imageCache := (imageId, image) :: s.imageCache })
    | none =>
      if options.skipCreateBuffer then .error .typeError
      else
        let buf : PixelBuffer := ⟨s.nextAllocId, List.replicate length 0⟩
        let image : LocalImage :=
          { imageId := imageId, rows := height, columns := width, buffer := buf,
            sizeInBytes := length, rowPixelSpacing := pm.rowPixelSpacing,
            columnPixelSpacing := pm.columnPixelSpacing,
            frameOfReferenceUID := pm.frameOfReferenceUID }
        .ok (image, { s with imageCache := (imageId, image) :: s.imageCache,
                             nextAllocId := s.nextAllocId + 1 })

/-- `createAndCacheDerivedImage`: throw on an undefined source identifier;
default the derived identifier to derived: plus a fresh uuid; read the
source's imagePlaneModule (dereferencing missing metadata throws); allocate a
fresh zero-filled buffer of length rows*columns (length 1 when buffer
creation is skipped); register the source's plane metadata under the derived
identifier (the generalSeriesModule and imagePixelModule registrations of the
source carry no field any claim inspects and are omitted); build and cache
the image through `createAndCacheLocalImage`; finally cache it again only if
no entry exists — it already does, so this is a no-op.  The whole operation
is a plain function: it performs no asynchronous step. -/
def createAndCacheDerivedImage (s : DerivedState) (referencedImageId? : Option String)
    (options : DerivedImageOptions) : Except JsError (LocalImage × DerivedState) :=
  match referencedImageId? with
  | none =>
    .error (.invalidParam "createAndCacheDerivedImage: parameter imageId must not be undefined")
  | some referencedImageId =>
    let idState : String × DerivedState :=
      match options.imageId with
      | some i => (i, s)
      | none => ("derived:" ++ uuidv4 s.nextUuid, { s with nextUuid := s.nextUuid + 1 })
    match idState with
    | (imageId, s₁) =>
      match s₁.planeMetadata.lookup referencedImageId with
      | none => .error .typeError
      | some pm =>
        let length := pm.rows * pm.columns
        let imageScalarData : PixelBuffer :=
          ⟨s₁.nextAllocId, List.replicate (if options.skipCreateBuffer then 1 else length) 0⟩
        let s₂ := { s₁ with nextAllocId := s₁.nextAllocId + 1 }
        let s₃ := { s₂ with planeMetadata := (imageId, pm) :: s₂.planeMetadata }
        match createAndCacheLocalImage s₃
            ⟨some imageScalarData, options.skipCreateBuffer⟩ imageId with
        | .error e => .error e
        | .ok (localImage, s₄) =>
          match s₄.imageCache.lookup imageId with
          | some _ => .ok (localImage, s₄)
          | none =>
            .ok (localImage, { s₄ with imageCache := (imageId, localImage) :: s₄.imageCache })

/-! Concrete states used by the witnesses and counterexamples. -/

/-- A four-time-point dynamic volume sitting at index 0. -/
def demoVol : DynVolume :=
  { volumeId := "vol-1", splittingTag := "TimePoint",
    imageIdGroups := [["a0"], ["a1"], ["a2"], ["a3"]],
    timePointIndex := 0, voxelTimePoint := 0, invalidated := false, events := [] }

/-- The same four-time-point volume sitting at its last index. -/
def demoVolAt3 : DynVolume :=
  { demoVol with timePointIndex := 3, voxelTimePoint := 3 }

/-- Five identifier groups, used for the expanding-ring witness. -/
def demoGroups : List (List String) :=
  [["g0a", "g0b"], ["g1a"], ["g2a", "g2b"], ["g3a"], ["g4a"]]

/-- A loader for the scheme test that always succeeds and supplies no
cancellation hook. -/
def demoOkLoader : ImageLoaderFn :=
  { result := fun imageId => .ok ⟨imageId⟩, hook := none }

/-- A loader for the scheme test whose fetches always fail. -/
def demoFailLoader : ImageLoaderFn :=
  { result := fun _ => .failed "network error", hook := none }

/-- A loader state with one registered loader (scheme test), an empty cache
and an empty request pool. -/
def demoLoaderState : LoaderState :=
  { imageLoaders := [("test", demoOkLoader)], unknownImageLoader := none,
    cache := [], volumeCache := [], requestPool := [],
    nextObjId := 0, fetchCount := 0, events := [] }

/-- Like `demoLoaderState` but with the failing loader registered. -/
def demoFailState : LoaderState :=
  { demoLoaderState with imageLoaders := [("test", demoFailLoader)] }

/-- An in-flight load object without a cancellation hook. -/
def demoHooklessObject : ImageLoadObject :=
  { objId := 0, outcome := .ok ⟨"wadors:a"⟩, cancelFn := none }

/-- A resolved load object carrying a cancellation hook. -/
def demoHookedObject : ImageLoadObject :=
  { objId := 7, outcome := .ok ⟨"test:cached"⟩, cancelFn := some 1 }

/-- A loader state whose cache holds an in-flight entry without a
cancellation hook, as left by a loader that supplied none. -/
def demoHooklessState : LoaderState :=
  { demoLoaderState with
    cache := [("wadors:a", demoHooklessObject)]
    nextObjId := 1
    fetchCount := 1 }

/-- A loader state whose cache already holds an entry for test:cached. -/
def demoCachedState : LoaderState :=
  { demoLoaderState with
    cache := [("test:cached", demoHookedObject)]
    nextObjId := 8
    fetchCount := 1 }

/-- Three queued, not-yet-started prefetch requests (no cache entries). -/
def demoPoolState : LoaderState :=
  { demoLoaderState with
    requestPool :=
      [("interactive", []), ("thumbnail", []),
       ("prefetch", [(0, [⟨some "test:p1", none⟩, ⟨some "test:p2", none⟩,
                          ⟨some "test:p3", none⟩])])] }

/-- Source geometry metadata used by the derived-image witness. -/
def demoPlane : PlaneModule :=
  { rows := 2, columns := 3, rowPixelSpacing := 1, columnPixelSpacing := 1,
    frameOfReferenceUID := "for-1" }

/-- The cached source image whose payload buffer is allocation 0. -/
def demoSourceImage : LocalImage :=
  { imageId := "wadors:src", rows := 2, columns := 3,
    buffer := ⟨0, List.replicate 6 0⟩, sizeInBytes := 6,
    rowPixelSpacing := 1, columnPixelSpacing := 1, frameOfReferenceUID := "for-1" }

/-- Derived-synthesis state: the source image is cached and its metadata
resolvable; allocation counter past the source's buffer. -/
def demoDerivedState : DerivedState :=
  { imageCache := [("wadors:src", demoSourceImage)],
    planeMetadata := [("wadors:src", demoPlane)],
    nextAllocId := 1, nextUuid := 0 }

/-! Theorems. -/

/-- Claim C6: for every group count greater than 0, every current index in
[0, groupCount) and every delta, scroll computes newIndex = currentIndex +
delta and sets the index to groupCount - 1 when newIndex is negative, to 0
when newIndex is at least groupCount, and to newIndex otherwise. -/
theorem scroll_wraparound (v : DynVolume) (delta : Int)
    (hpos : 0 < numTimePoints v) (hlo : 0 ≤ v.timePointIndex)
    (hhi : v.timePointIndex < numTimePoints v) :
    (scroll v delta).timePointIndex =
      if v.timePointIndex + delta < 0 then numTimePoints v - 1
      else if numTimePoints v ≤ v.timePointIndex + delta then 0
      else v.timePointIndex + delta := by
  simp only [scroll, setTimePointIndex]
  split_ifs <;> first
    | assumption
    | (dsimp only; try omega)

/-- Witness for C6 at the claim's concrete instance: four groups, scrolling
back from index 0 wraps to 3 and scrolling forward from index 3 wraps to 0. -/
theorem scroll_wraparound_witness :
    (scroll demoVol (-1)).timePointIndex = 3 ∧
    (scroll demoVolAt3 1).timePointIndex = 0 := by
  have h1 := scroll_wraparound demoVol (-1) (by decide) (by decide) (by decide)
  have h2 := scroll_wraparound demoVolAt3 1 (by decide) (by decide) (by decide)
  refine ⟨?_, ?_⟩
  · rw [h1]; decide
  · rw [h2]; decide

/-- Claim C7: assigning the current index through the setter is a complete
no-op — the state, including the invalidation flag and the emitted-event
list, is unchanged — while assigning a different index updates the index,
raises the invalidation flag and emits the time-point-changed notification
carrying volumeId, the new index, the group count and the splitting tag. -/
theorem setTimePointIndex_spec (v : DynVolume) (index : Int) :
    (index = v.timePointIndex → setTimePointIndex v index = v) ∧
    (index ≠ v.timePointIndex →
      (setTimePointIndex v index).timePointIndex = index ∧
      (setTimePointIndex v index).invalidated = true ∧
      (setTimePointIndex v index).events =
        v.events ++ [⟨v.volumeId, index, numTimePoints v, v.splittingTag⟩]) := by
  constructor
  · intro h
    simp [setTimePointIndex, h]
  · intro h
    have hne : ¬ v.timePointIndex = index := fun hh => h hh.symm
    simp [setTimePointIndex, hne]

/-- Witness for C7: on the demo volume, re-assigning index 0 changes nothing
and assigning index 2 invalidates and emits the notification. -/
theorem setTimePointIndex_spec_witness :
    setTimePointIndex demoVol 0 = demoVol ∧
    (setTimePointIndex demoVol 2).invalidated = true ∧
    (setTimePointIndex demoVol 2).events =
      demoVol.events ++ [⟨demoVol.volumeId, 2, numTimePoints demoVol, demoVol.splittingTag⟩] :=
  ⟨(setTimePointIndex_spec demoVol 0).1 (by decide),
   (((setTimePointIndex_spec demoVol 2).2 (by decide)).2).1,
   (((setTimePointIndex_spec demoVol 2).2 (by decide)).2).2⟩

/-- Claim C10: the load operations validate their input synchronously: an
undefined identifier makes loadImage and loadAndCacheImage fail immediately,
and a missing or empty identifier list makes loadAndCacheImages fail
immediately; in every case the state — in particular the cache and the number
of fetch-function invocations — is unchanged. -/
theorem load_validates_input (s : LoaderState) :
    loadImage s none =
      (.error (.invalidParam "loadImage: parameter imageId must not be undefined"), s) ∧
    loadAndCacheImage s none =
      (.error (.invalidParam "loadAndCacheImage: parameter imageId must not be undefined"), s) ∧
    loadAndCacheImages s none =
      (.error (.invalidParam "loadAndCacheImages: parameter imageIds must be list of image Ids"), s) ∧
    loadAndCacheImages s (some []) =
      (.error (.invalidParam "loadAndCacheImages: parameter imageIds must be list of image Ids"), s) :=
  ⟨rfl, rfl, rfl, rfl⟩

/-- Claim C5, evaluated at the failing input: an in-flight cache entry whose
loader supplied no cancellation hook makes cancelLoadImage throw a TypeError
(the source calls the hook without checking it exists), while the cache entry
itself stays untouched, so the fetch still completes into the cache. -/
theorem cancelLoadImage_no_hook_throws :
    (cancelLoadImage demoHooklessState "wadors:a").1 = .error .typeError ∧
    (cancelLoadImage demoHooklessState "wadors:a").2.cache = demoHooklessState.cache :=
  ⟨rfl, rfl⟩

/-- Claim C1 counterexample: two loadAndCache calls for test:1, both issued
before either settles, invoke the registered fetch function twice — not once
— and return two distinct load objects to the two callers. -/
theorem loadAndCache_dedup_counterexample :
    ((loadAndCacheImage (loadAndCacheImage demoLoaderState (some "test:1")).2
        (some "test:1")).2.fetchCount = 2) ∧
    ¬ ((loadAndCacheImage (loadAndCacheImage demoLoaderState (some "test:1")).2
        (some "test:1")).2.fetchCount = 1) ∧
    (loadAndCacheImage demoLoaderState (some "test:1")).1 ≠
      (loadAndCacheImage (loadAndCacheImage demoLoaderState (some "test:1")).2
        (some "test:1")).1 := by
  refine ⟨rfl, by decide, ?_⟩
  intro h
  cases h

/-- takeWhile of not-colon over a list decomposed at its first colon returns
exactly the part before that colon. -/
theorem takeWhile_before_colon (post : List Char) :
    ∀ pre : List Char, ':' ∉ pre →
      (pre ++ ':' :: post).takeWhile (fun c => decide (c ≠ ':')) = pre := by
  intro pre
  induction pre with
  | nil => intro _; simp [List.takeWhile]
  | cons a as ih =>
    intro h
    have ha : a ≠ ':' := fun hh => h (by simp [hh])
    have has : ':' ∉ as := fun hm => h (List.mem_cons_of_mem _ hm)
    simp [List.takeWhile_cons, ha]
    simpa using ih has

/-- Scheme extraction computes the substring before the first colon: on an
identifier of the form pre ++ colon ++ post with pre colon-free, the scheme
is pre. -/
theorem extractScheme_before_first_colon (pre post : List Char) (hpre : ':' ∉ pre) :
    extractScheme ⟨pre ++ ':' :: post⟩ = ⟨pre⟩ := by
  unfold extractScheme
  rw [if_pos (by simp)]
  exact congrArg String.mk (takeWhile_before_colon post pre hpre)

/-- Claim C9: resolution extracts the scheme as the substring before the
first colon of the identifier and returns the handler registered under it;
with no handler registered, the fallback is used when one exists; with
neither, the operation fails with the no-image-loader error, surfaced to the
caller. -/
theorem resolveLoader_spec (imageLoaders : List (String × ImageLoaderFn))
    (unknownLoader : Option ImageLoaderFn) (pre post : List Char)
    (hpre : ':' ∉ pre) :
    extractScheme ⟨pre ++ ':' :: post⟩ = ⟨pre⟩ ∧
    (∀ l, imageLoaders.lookup (⟨pre⟩ : String) = some l →
      resolveLoader imageLoaders unknownLoader ⟨pre ++ ':' :: post⟩ = .ok l) ∧
    (imageLoaders.lookup (⟨pre⟩ : String) = none →
      ∀ u, unknownLoader = some u →
        resolveLoader imageLoaders unknownLoader ⟨pre ++ ':' :: post⟩ = .ok u) ∧
    (imageLoaders.lookup (⟨pre⟩ : String) = none → unknownLoader = none →
      resolveLoader imageLoaders unknownLoader ⟨pre ++ ':' :: post⟩ =
        .error .noImageLoader) := by
  have hs := extractScheme_before_first_colon pre post hpre
  refine ⟨hs, ?_, ?_, ?_⟩
  · intro l hl
    simp only [resolveLoader, hs, hl]
  · intro hnone u hu
    simp only [resolveLoader, hs, hnone, hu]
  · intro hnone hu
    simp only [resolveLoader, hs, hnone, hu]

/-- Witness for C9: with the test loader registered the handler is returned,
with an empty registry and no fallback the resolution fails. -/
theorem resolveLoader_spec_witness :
    extractScheme ⟨['t', 'e', 's', 't'] ++ ':' :: ['1']⟩ = ⟨['t', 'e', 's', 't']⟩ ∧
    resolveLoader demoLoaderState.imageLoaders none ⟨['t', 'e', 's', 't'] ++ ':' :: ['1']⟩ =
      .ok demoOkLoader ∧
    resolveLoader [] none ⟨['t', 'e', 's', 't'] ++ ':' :: ['1']⟩ = .error .noImageLoader := by
  have h := resolveLoader_spec demoLoaderState.imageLoaders none
    ['t', 'e', 's', 't'] ['1'] (by decide)
  have h2 := resolveLoader_spec ([] : List (String × ImageLoaderFn)) none
    ['t', 'e', 's', 't'] ['1'] (by decide)
  exact ⟨h.1, h.2.1 demoOkLoader rfl, h2.2.2.2 rfl rfl⟩

/-- Claim C1 amended: loadAndCache always invokes the resolved fetch
function, also when the cache already holds an entry for the identifier; the
load object is registered in the cache only when no entry existed, and an
existing entry — resolved or in-flight — is left in place, so a second call
before the first resolves issues a second fetch invocation rather than
attaching to the first. -/
theorem loadAndCache_always_fetches (s : LoaderState) (imageId : String)
    (loader : ImageLoaderFn)
    (hres : s.imageLoaders.lookup (extractScheme imageId) = some loader) :
    ∃ r s₁, loadAndCacheImage s (some imageId) = (.ok r, s₁) ∧
      s₁.fetchCount = s.fetchCount + 1 ∧
      r.obj = ⟨s.nextObjId, loader.result imageId, loader.hook⟩ ∧
      (∀ e, s.cache.lookup imageId = some e → s₁.cache = s.cache) ∧
      (s.cache.lookup imageId = none → s₁.cache = (imageId, r.obj) :: s.cache) := by
  have hstep : loadImageFromImageLoader s imageId =
      (.ok ⟨⟨s.nextObjId, loader.result imageId, loader.hook⟩, true⟩,
       { s with nextObjId := s.nextObjId + 1, fetchCount := s.fetchCount + 1 }) := by
    simp only [loadImageFromImageLoader, hres]
  cases hc : s.cache.lookup imageId with
  | some e =>
    refine ⟨⟨⟨s.nextObjId, loader.result imageId, loader.hook⟩, true, false⟩,
      { s with nextObjId := s.nextObjId + 1, fetchCount := s.fetchCount + 1 },
      ?_, rfl, rfl, fun _ _ => rfl, fun hnone => Option.noConfusion hnone⟩
    simp only [loadAndCacheImage, hstep, hc]
  | none =>
    refine ⟨⟨⟨s.nextObjId, loader.result imageId, loader.hook⟩, true, true⟩,
      { s with
        nextObjId := s.nextObjId + 1
        fetchCount := s.fetchCount + 1
        cache := (imageId, ⟨s.nextObjId, loader.result imageId, loader.hook⟩) :: s.cache },
      ?_, rfl, rfl, fun _ he => Option.noConfusion he, fun _ => rfl⟩
    simp only [loadAndCacheImage, hstep, hc]

/-- Witness for the amended C1: with an entry for test:cached already in the
cache, loadAndCache still fetches (the invocation count goes up by one) and
the cache is left unchanged. -/
theorem loadAndCache_always_fetches_witness :
    ∃ r s₁, loadAndCacheImage demoCachedState (some "test:cached") = (.ok r, s₁) ∧
      s₁.fetchCount = demoCachedState.fetchCount + 1 ∧
      r.obj = ⟨demoCachedState.nextObjId, demoOkLoader.result "test:cached",
        demoOkLoader.hook⟩ ∧
      (∀ e, demoCachedState.cache.lookup "test:cached" = some e →
        s₁.cache = demoCachedState.cache) ∧
      (demoCachedState.cache.lookup "test:cached" = none →
        s₁.cache = ("test:cached", r.obj) :: demoCachedState.cache) :=
  loadAndCache_always_fetches demoCachedState "test:cached" demoOkLoader rfl

/-- Deleting a key from the cache makes a lookup of that key miss. -/
theorem lookup_assocErase {α : Type} (k : String) (l : List (String × α)) :
    (assocErase k l).lookup k = none := by
  induction l with
  | nil => rfl
  | cons hd rest ih =>
    obtain ⟨k', v⟩ := hd
    by_cases h : k' = k
    · simp [assocErase, h, ih]
    · have h' : ¬ k = k' := fun hh => h hh.symm
      have hb : (k == k') = false := beq_eq_false_iff_ne.mpr h'
      simp [assocErase, h, List.lookup, hb, ih]

/-- Claim C2: when the fetch function for an identifier fails, loadAndCache
registers the in-flight handle, and at settlement the cache entry is removed
again and the caller's promise is rejected with the fetch failure (the
IMAGE_LOAD_FAILED notification also fires); afterwards the cache has no entry
for the identifier — a failed fetch is never left in the cache. -/
theorem loadAndCache_failure_not_cached (s : LoaderState) (imageId e : String)
    (loader : ImageLoaderFn)
    (hres : s.imageLoaders.lookup (extractScheme imageId) = some loader)
    (hfail : loader.result imageId = .failed e)
    (hmiss : s.cache.lookup imageId = none) :
    ∃ r s₁, loadAndCacheImage s (some imageId) = (.ok r, s₁) ∧
      r.obj.outcome = .failed e ∧
      (settleLoadAndCache s₁ imageId r).cache.lookup imageId = none ∧
      (settleLoadAndCache s₁ imageId r).events =
        s.events ++ [LoadEvent.imageLoadFailed imageId e] := by
  have hstep : loadImageFromImageLoader s imageId =
      (.ok ⟨⟨s.nextObjId, loader.result imageId, loader.hook⟩, true⟩,
       { s with nextObjId := s.nextObjId + 1, fetchCount := s.fetchCount + 1 }) := by
    simp only [loadImageFromImageLoader, hres]
  refine ⟨⟨⟨s.nextObjId, loader.result imageId, loader.hook⟩, true, true⟩,
    { s with
      nextObjId := s.nextObjId + 1
      fetchCount := s.fetchCount + 1
      cache := (imageId, ⟨s.nextObjId, loader.result imageId, loader.hook⟩) :: s.cache },
    ?_, by simp [hfail], ?_, ?_⟩
  · simp only [loadAndCacheImage, hstep, hmiss]
  · simp [settleLoadAndCache, hfail, lookup_assocErase]
  · simp [settleLoadAndCache, hfail]

/-- Witness for C2: the failing test loader leaves no cache entry for test:1
and the failure event fires. -/
theorem loadAndCache_failure_not_cached_witness :
    ∃ r s₁, loadAndCacheImage demoFailState (some "test:1") = (.ok r, s₁) ∧
      r.obj.outcome = .failed "network error" ∧
      (settleLoadAndCache s₁ "test:1" r).cache.lookup "test:1" = none ∧
      (settleLoadAndCache s₁ "test:1" r).events =
        demoFailState.events ++ [LoadEvent.imageLoadFailed "test:1" "network error"] :=
  loadAndCache_failure_not_cached demoFailState "test:1" "network error"
    demoFailLoader rfl rfl rfl

/-- Every request class left by a completed run of the cancel-all outer loop
has an empty priority-queue list. -/
theorem cancelAllTypes_drains (icache : List (String × ImageLoadObject))
    (vcache : List (String × VolumeLoadObject)) :
    ∀ pool : RequestPool, (cancelAllTypes icache vcache pool).1 = .ok () →
      ∀ tq ∈ (cancelAllTypes icache vcache pool).2, tq.2 = ([] : PriorityQueues) := by
  intro pool
  induction pool with
  | nil =>
    intro _ tq htq
    simp [cancelAllTypes] at htq
  | cons hd rest ih =>
    obtain ⟨t, pris⟩ := hd
    intro hok tq htq
    simp only [cancelAllTypes] at hok htq
    cases hcq : cancelClassQueues icache vcache pris with
    | mk res pris' =>
      rw [hcq] at hok htq
      cases res with
      | error e =>
        exact Except.noConfusion hok
      | ok u =>
        cases hrec : cancelAllTypes icache vcache rest with
        | mk res₂ rest' =>
          rw [hrec] at hok htq
          simp only at hok htq
          rcases List.mem_cons.mp htq with h | h
          · rw [h]
          · have h2 := ih (by rw [hrec]; exact hok)
            have := h2 tq (by rw [hrec]; exact h)
            exact this

/-- Claim C4: whenever cancelLoadAll runs to completion, the request pool
afterwards holds zero queued requests in every request class, while the cache
— which tracks in-flight fetches — is not written at all (an in-flight fetch
without a cancellation hook keeps running and still resolves into the
cache). -/
theorem cancelLoadAll_drains_pool (s : LoaderState)
    (hok : (cancelLoadAll s).1 = .ok ()) :
    (∀ tq ∈ (cancelLoadAll s).2.requestPool, tq.2 = ([] : PriorityQueues)) ∧
    (cancelLoadAll s).2.cache = s.cache := by
  have h1 : (cancelLoadAll s).1 =
      (cancelAllTypes s.cache s.volumeCache s.requestPool).1 := by
    unfold cancelLoadAll
    cases cancelAllTypes s.cache s.volumeCache s.requestPool with
    | mk res pool' => rfl
  have h2 : (cancelLoadAll s).2.requestPool =
      (cancelAllTypes s.cache s.volumeCache s.requestPool).2 := by
    unfold cancelLoadAll
    cases cancelAllTypes s.cache s.volumeCache s.requestPool with
    | mk res pool' => rfl
  have h3 : (cancelLoadAll s).2.cache = s.cache := by
    unfold cancelLoadAll
    cases cancelAllTypes s.cache s.volumeCache s.requestPool with
    | mk res pool' => rfl
  refine ⟨?_, h3⟩
  intro tq htq
  rw [h2] at htq
  exact cancelAllTypes_drains s.cache s.volumeCache s.requestPool
    (by rw [← h1]; exact hok) tq htq

/-- Witness for C4 at the claim's scenario: three queued, not-yet-started
prefetch requests, then cancelLoadAll; every class's pool is empty after. -/
theorem cancelLoadAll_drains_pool_witness :
    (cancelLoadAll demoPoolState).1 = .ok () ∧
    ((∀ tq ∈ (cancelLoadAll demoPoolState).2.requestPool, tq.2 = ([] : PriorityQueues)) ∧
     (cancelLoadAll demoPoolState).2.cache = demoPoolState.cache) :=
  ⟨rfl, cancelLoadAll_drains_pool demoPoolState rfl⟩

/-- Interleaving with an exhausted right side returns the left side. -/
theorem interleave_nil_right {α : Type} (xs : List α) : interleave xs [] = xs := by
  cases xs <;> rfl

/-- Peeling one index off the descending list of the left loop counter. -/
theorem leftList_cons (l : Int) (h : 0 ≤ l) :
    leftList l = l.toNat :: leftList (l - 1) := by
  rcases lt_or_le l 1 with h1 | h1
  · have hl : l = 0 := by omega
    subst hl
    rfl
  · have h0 : (0 : Int) ≤ l - 1 := by omega
    have ht : (l - 1).toNat + 1 = l.toNat := by omega
    rw [leftList, leftList, if_pos h, if_pos h0, ← ht, List.range_succ]
    simp

/-- One-step unfolding of the `_getImageIdsToLoad` while loop. -/
theorem expandLoop_unfold (groups : List (List String)) (l : Int) (r : Nat) :
    expandLoop groups l r =
      if 0 ≤ l ∨ r < groups.length then
        (if 0 ≤ l then groups.getD l.toNat [] else [])
          ++ (if r < groups.length then groups.getD r [] else [])
          ++ expandLoop groups (if 0 ≤ l then l - 1 else l)
              (if r < groups.length then r + 1 else r)
      else [] := by
  rw [expandLoop]
  rfl

/-- The while loop of `_getImageIdsToLoad` produces exactly the interleaving
of the remaining left indices (descending) with the remaining right indices
(ascending): the loop pushes one left group then one right group per
iteration and appends the leftover side once the other is exhausted. -/
theorem expandLoop_interleave (groups : List (List String)) :
    ∀ (fuel : Nat) (l : Int) (r : Nat),
      (l + 1).toNat + (groups.length - r) ≤ fuel →
      expandLoop groups l r =
        concatGroups groups
          (interleave (leftList l) (List.range' r (groups.length - r))) := by
  intro fuel
  induction fuel with
  | zero =>
    intro l r h
    have h0 : ¬ 0 ≤ l := by omega
    have hr : ¬ r < groups.length := by omega
    rw [expandLoop_unfold, if_neg (by tauto)]
    have hlen : groups.length - r = 0 := by omega
    rw [hlen]
    simp [leftList, h0, interleave, concatGroups]
  | succ fuel ih =>
    intro l r h
    rw [expandLoop_unfold]
    by_cases h0 : 0 ≤ l <;> by_cases hr : r < groups.length
    · rw [if_pos (Or.inl h0), if_pos h0, if_pos hr, if_pos h0, if_pos hr]
      rw [leftList_cons l h0]
      have hlen : groups.length - r = (groups.length - (r + 1)) + 1 := by omega
      rw [hlen, List.range'_succ]
      rw [ih (l - 1) (r + 1) (by omega)]
      simp [interleave, concatGroups, List.append_assoc]
    · rw [if_pos (Or.inl h0), if_pos h0, if_neg hr, if_pos h0, if_neg hr]
      rw [leftList_cons l h0]
      have hlen : groups.length - r = 0 := by omega
      rw [hlen]
      rw [ih (l - 1) r (by omega), hlen]
      simp [interleave_nil_right, interleave, concatGroups]
    · rw [if_pos (Or.inr hr), if_neg h0, if_pos hr, if_neg h0, if_pos hr]
      have hleft : leftList l = [] := by simp [leftList, h0]
      have hlen : groups.length - r = (groups.length - (r + 1)) + 1 := by omega
      rw [hlen, List.range'_succ]
      rw [ih l (r + 1) (by omega), hleft]
      simp [interleave, concatGroups]
    · rw [if_neg (by tauto)]
      have hleft : leftList l = [] := by simp [leftList, h0]
      have hlen : groups.length - r = 0 := by omega
      rw [hlen, hleft]
      simp [interleave, concatGroups]

/-- The left loop counter starts at the current index minus one, so its
descending list is the reversed range of the current index. -/
theorem leftList_natCast_sub_one (idx : Nat) :
    leftList ((idx : Int) - 1) = (List.range idx).reverse := by
  cases idx with
  | zero => rfl
  | succ k =>
    have hc : ((k + 1 : Nat) : Int) - 1 = (k : Int) := by push_cast; ring
    rw [hc, leftList, if_pos (Int.natCast_nonneg k)]
    simp

/-- Claim C3: for every group list and every current index inside it, the
load order is the current group first, then the groups in expanding-ring
order — alternately one group to the left and one to the right, with the
remaining side appended once one side is exhausted. -/
theorem getImageIdsToLoad_ring (groups : List (List String)) (idx : Nat)
    (hidx : idx < groups.length) :
    getImageIdsToLoad groups idx = concatGroups groups (ringOrder groups.length idx) := by
  unfold getImageIdsToLoad ringOrder
  rw [expandLoop_interleave groups
      (((idx : Int) - 1 + 1).toNat + (groups.length - (idx + 1)))
      ((idx : Int) - 1) (idx + 1) le_rfl]
  rw [leftList_natCast_sub_one]
  simp [concatGroups]

/-- Witness for C3: on five groups with current index 2, the load order is
the ring order over the group count, and the ring order of five groups
around index 2 is exactly 2, 1, 3, 0, 4. -/
theorem getImageIdsToLoad_ring_witness :
    2 < demoGroups.length ∧
    getImageIdsToLoad demoGroups 2 = concatGroups demoGroups (ringOrder demoGroups.length 2) ∧
    ringOrder 5 2 = [2, 1, 3, 0, 4] :=
  ⟨by decide, getImageIdsToLoad_ring demoGroups 2 (by decide), by decide⟩

/-- A lookup hit means the binding occurs in the association list. -/
theorem lookup_some_mem {α : Type} (k : String) (v : α) :
    ∀ l : List (String × α), l.lookup k = some v → (k, v) ∈ l := by
  intro l
  induction l with
  | nil => intro h; cases h
  | cons hd rest ih =>
    obtain ⟨k', v'⟩ := hd
    intro h
    by_cases hk : k = k'
    · subst hk
      have hv : v' = v := by simpa [List.lookup] using h
      subst hv
      exact List.mem_cons_self _ _
    · have hb : (k == k') = false := beq_eq_false_iff_ne.mpr hk
      have h' : List.lookup k rest = some v := by simpa [List.lookup, hb] using h
      exact List.mem_cons_of_mem _ (ih h')

/-- Claim C8: for a source identifier with resolvable geometry metadata,
createAndCacheDerivedImage returns a frame carrying the source's rows and
columns, with a freshly allocated zero-filled payload buffer of size
rows*columns (a one-element placeholder when buffer creation is skipped)
that is a distinct allocation from every cached frame's buffer — in
particular from the source frame's — under a freshly generated
derived-scheme identifier different from every cached identifier, and the
frame is stored in the cache in the same synchronous step (the whole
operation is one plain function call with no asynchronous part). -/
theorem createDerivedFrame_spec (s : DerivedState) (referencedImageId : String)
    (skip : Bool) (pm : PlaneModule) (srcImg : LocalImage)
    (hpm : s.planeMetadata.lookup referencedImageId = some pm)
    (hsrc : s.imageCache.lookup referencedImageId = some srcImg)
    (halloc : ∀ p ∈ s.imageCache, p.2.buffer.allocId < s.nextAllocId)
    (hfresh : ∀ p ∈ s.imageCache, p.1 ≠ "derived:" ++ uuidv4 s.nextUuid) :
    ∃ img s', createAndCacheDerivedImage s (some referencedImageId) ⟨none, skip⟩ =
        .ok (img, s') ∧
      img.rows = pm.rows ∧ img.columns = pm.columns ∧
      img.buffer.data = List.replicate (if skip then 1 else pm.rows * pm.columns) 0 ∧
      img.buffer.allocId = s.nextAllocId ∧
      img.buffer.allocId ≠ srcImg.buffer.allocId ∧
      img.imageId = "derived:" ++ uuidv4 s.nextUuid ∧
      (∀ p ∈ s.imageCache, p.1 ≠ img.imageId) ∧
      s'.imageCache.lookup img.imageId = some img := by
  have hrun : createAndCacheDerivedImage s (some referencedImageId) ⟨none, skip⟩ =
      .ok
        ({ imageId := "derived:" ++ uuidv4 s.nextUuid, rows := pm.rows, columns := pm.columns,
           buffer := ⟨s.nextAllocId, List.replicate (if skip then 1 else pm.rows * pm.columns) 0⟩,
           sizeInBytes := (List.replicate (if skip then 1 else pm.rows * pm.columns) (0 : Nat)).length,
           rowPixelSpacing := pm.rowPixelSpacing, columnPixelSpacing := pm.columnPixelSpacing,
           frameOfReferenceUID := pm.frameOfReferenceUID },
         { imageCache :=
             ("derived:" ++ uuidv4 s.nextUuid,
              { imageId := "derived:" ++ uuidv4 s.nextUuid, rows := pm.rows, columns := pm.columns,
                buffer := ⟨s.nextAllocId, List.replicate (if skip then 1 else pm.rows * pm.columns) 0⟩,
                sizeInBytes := (List.replicate (if skip then 1 else pm.rows * pm.columns) (0 : Nat)).length,
                rowPixelSpacing := pm.rowPixelSpacing, columnPixelSpacing := pm.columnPixelSpacing,
                frameOfReferenceUID := pm.frameOfReferenceUID }) :: s.imageCache,
           planeMetadata := ("derived:" ++ uuidv4 s.nextUuid, pm) :: s.planeMetadata,
           nextAllocId := s.nextAllocId + 1, nextUuid := s.nextUuid + 1 }) := by
    simp [createAndCacheDerivedImage, createAndCacheLocalImage, hpm, List.lookup]
  refine ⟨_, _, hrun, rfl, rfl, rfl, rfl, ?_, rfl, hfresh, ?_⟩
  · have hm := lookup_some_mem referencedImageId srcImg s.imageCache hsrc
    have hlt : srcImg.buffer.allocId < s.nextAllocId := halloc (referencedImageId, srcImg) hm
    show s.nextAllocId ≠ srcImg.buffer.allocId
    omega
  · simp [List.lookup]

/-- Witness for C8 on a concrete two-by-three source frame: the derived
frame shares rows and columns, gets the fresh allocation 1 distinct from the
source's allocation 0, a fresh derived identifier, and is cached. -/
theorem createDerivedFrame_spec_witness :
    ∃ img s', createAndCacheDerivedImage demoDerivedState (some "wadors:src") ⟨none, false⟩ =
        .ok (img, s') ∧
      img.rows = demoPlane.rows ∧ img.columns = demoPlane.columns ∧
      img.buffer.data = List.replicate (if false then 1 else demoPlane.rows * demoPlane.columns) 0 ∧
      img.buffer.allocId = demoDerivedState.nextAllocId ∧
      img.buffer.allocId ≠ demoSourceImage.buffer.allocId ∧
      img.imageId = "derived:" ++ uuidv4 demoDerivedState.nextUuid ∧
      (∀ p ∈ demoDerivedState.imageCache, p.1 ≠ img.imageId) ∧
      s'.imageCache.lookup img.imageId = some img :=
  createDerivedFrame_spec demoDerivedState "wadors:src" false demoPlane demoSourceImage
    rfl rfl (by decide) (by decide)
